import Mathlib

/-!
Verification development for the telephony/speech-backend bridge
(`src/wsBridge.ts`).  The repository file concatenates three revisions of
the same component; the claims reference the first revision (the
`Session` state machine with `phase`, `buffer`, truncation and the
response-timeout guard) and the second revision (the `transcript`
accumulator with the `twilioWs.on(close)` teardown and streamSid
adoption from the first media frame).  Both are embedded below as
executable functions over explicit session states, with side effects
(frames sent on each leg, close calls, transcript delivery) returned as
explicit effect records.

Raw wire frames are abstracted by inductive types whose `malformed`
constructor stands for any byte string that `JSON.parse` rejects; the
other constructors carry exactly the fields the handlers read.
-/

namespace DeineTuer

/-- WebSocket readyState values (ws library numeric order 0..3). -/
inductive ReadyState
  | CONNECTING
  | OPEN
  | CLOSING
  | CLOSED
deriving DecidableEq, Repr

/-- Numeric value of a readyState, as compared by `readyState <= WebSocket.CLOSING`. -/
def readyNum : ReadyState → Nat
  | .CONNECTING => 0
  | .OPEN => 1
  | .CLOSING => 2
  | .CLOSED => 3

/-- Turn phase of a session (revision 1: `type Phase`). -/
inductive Phase
  | IDLE
  | LISTENING
  | RESPONDING
deriving DecidableEq, Repr

/-- Result of a tool handler after the try/catch in `handleFunctionCall`:
either the returned value or the structured error payload built from the
caught message (the object with the single field error). -/
inductive FnResult
  | ok (value : String)
  | err (message : String)
deriving DecidableEq, Repr

/-- Messages the bridge sends to the speech backend. -/
inductive OAIOut
  | sessionUpdate
  | append (payload : String)
  | commit
  | truncate (itemId : String) (contentIndex : Nat) (audioEndMs : Int)
  | itemCreateFunctionOutput (callId : String) (output : FnResult)
  | responseCreate
  | reset
deriving DecidableEq, Repr

/-- Frames the bridge sends back to the telephony leg (revision 1). -/
inductive TwilioOut
  | media (streamSid : String) (payload : String)
  | mark (streamSid : String)
  | clear (streamSid : String)
deriving DecidableEq, Repr

/-- Payloads broadcast to the diagnostic frontends. -/
inductive FrontMsg
  | conversationStarted (sid : String)
  | conversationEnded (sid : String)
  | userText (sid : String) (text : String)
  | agentText (sid : String) (text : String)
  | relayedBackendEvent
deriving DecidableEq, Repr

/-- Inbound telephony frames after `JSON.parse`; `malformed` stands for a
raw frame that is not valid JSON, `other` for JSON whose event field
matches no case. `media` carries the top-level streamSid (read by
revision 2) and `media.timestamp` / `media.payload` (read by revision 1). -/
inductive TwilioRaw
  | start (streamSid : String)
  | media (timestamp : Int) (streamSid : String) (payload : String)
  | stop
  | other
  | malformed (raw : String)
deriving DecidableEq, Repr

/-- Inbound backend events after `JSON.parse`.  `transcriptionCompleted`
carries the transcription text field (none when absent or non-truthy is
handled at use sites), `outputItemDoneFn` carries the function-call item
with `args = none` when `JSON.parse(item.arguments)` throws, and
`responseDone` carries the extracted final transcript when present. -/
inductive OAIRaw
  | transcriptionCompleted (text : Option String)
  | speechStarted
  | audioDelta (itemId : Option String) (delta : String)
  | outputItemDoneFn (name : String) (callId : String) (args : Option String)
  | outputItemDoneOther
  | responseDone (transcript : Option String)
  | other
  | malformed (raw : String)
deriving DecidableEq, Repr

/-- One registered tool: a name and an asynchronous handler; a raised
failure is modelled by the error branch carrying the exception message. -/
structure FunctionDef where
  name : String
  handler : String → Except String String

/-- Session state of revision 1 (`interface Session`). The three
connections are kept as readyStates (`openai = none` before
`openOpenAI` creates the socket); `killerArmed` models the pending
response-timeout `setTimeout` from `commitAudio` that has been neither
cleared by a backend message nor fired. -/
structure Session1 where
  twilioReady : ReadyState
  openai : Option ReadyState
  frontends : List ReadyState
  state : Phase
  streamSid : String
  buffer : List OAIOut
  lastAssistantItem : Option String
  responseStartMs : Option Int
  latestMediaTs : Option Int
  heartbeatActive : Bool
  killerArmed : Bool
deriving DecidableEq, Repr

/-- Observable side effects of one handler invocation in revision 1. -/
structure Eff where
  toOpenai : List OAIOut
  toTwilio : List TwilioOut
  toFrontends : List FrontMsg
  closes : List String
deriving DecidableEq, Repr

/-- No side effects. -/
def Eff.nil : Eff := ⟨[], [], [], []⟩

/-- `safeSend` on the backend leg: the frame is written only when the
socket exists and is OPEN. -/
def safeSendOAI (o : Option ReadyState) (m : OAIOut) : List OAIOut :=
  match o with
  | some ReadyState.OPEN => [m]
  | _ => []

/-- `safeSend` on the telephony leg. -/
def safeSendTw (r : ReadyState) (m : TwilioOut) : List TwilioOut :=
  if r = ReadyState.OPEN then [m] else []

/-- `broadcast`: `safeSend` of one payload to every frontend socket,
which only reaches the OPEN ones. -/
def broadcastTo (fs : List ReadyState) (p : FrontMsg) : List FrontMsg :=
  (fs.filter (fun r => decide (r = ReadyState.OPEN))).map (fun _ => p)

/-- `openOpenAI`: a no-op when a backend socket already exists, otherwise
creates the socket in CONNECTING state. -/
def openOpenAI (s : Session1) : Session1 :=
  match s.openai with
  | some _ => s
  | none => { s with openai := some ReadyState.CONNECTING }

/-- `commitAudio`: returns early when no backend socket exists; otherwise
`safeSend` of the commit frame and arming of the response-timeout killer. -/
def commitAudio (s : Session1) : Session1 × Eff :=
  match s.openai with
  | none => (s, Eff.nil)
  | some r =>
      ({ s with killerArmed := true },
       { Eff.nil with toOpenai := if r = ReadyState.OPEN then [OAIOut.commit] else [] })

/-- `handleTwilio` of revision 1: parse failure returns silently; `start`
overwrites streamSid, enters LISTENING, resets the media clock and calls
`openOpenAI`; `media` forwards the append frame when the backend socket
is OPEN and buffers it otherwise; `stop` commits only from LISTENING. -/
def handleTwilio (s : Session1) (raw : TwilioRaw) : Session1 × Eff :=
  match raw with
  | TwilioRaw.malformed _ => (s, Eff.nil)
  | TwilioRaw.start sid =>
      let s1 := { s with streamSid := sid, state := Phase.LISTENING,
                         latestMediaTs := some 0 }
      let s2 := openOpenAI s1
      (s2, { Eff.nil with
             toFrontends := broadcastTo s2.frontends (FrontMsg.conversationStarted sid) })
  | TwilioRaw.media ts _ payload =>
      let s1 := { s with latestMediaTs := some ts }
      if s1.openai = some ReadyState.OPEN then
        (s1, { Eff.nil with toOpenai := [OAIOut.append payload] })
      else
        ({ s1 with buffer := s1.buffer ++ [OAIOut.append payload] }, Eff.nil)
  | TwilioRaw.stop =>
      if s.state ≠ Phase.LISTENING then (s, Eff.nil)
      else commitAudio { s with state := Phase.RESPONDING }
  | TwilioRaw.other => (s, Eff.nil)

/-- `handleTruncation`: returns early unless an assistant item, a turn
start offset and a backend socket all exist; elapsed playback is the
JS expression `(latestMediaTs || 0) - (responseStartMs || 0)`, clamped to
zero; the truncate frame goes to the backend and the clear frame to
telephony, each through `safeSend`; the assistant item is cleared.  The
phase field is not touched. -/
def handleTruncation (s : Session1) : Session1 × Eff :=
  match s.lastAssistantItem, s.responseStartMs, s.openai with
  | some item, some t0, some oaiR =>
      let elapsed : Int := s.latestMediaTs.getD 0 - t0
      let audioEndMs : Int := if elapsed > 0 then elapsed else 0
      ({ s with lastAssistantItem := none },
       { Eff.nil with
         toOpenai := if oaiR = ReadyState.OPEN
                     then [OAIOut.truncate item 0 audioEndMs] else [],
         toTwilio := safeSendTw s.twilioReady (TwilioOut.clear s.streamSid) })
  | _, _, _ => (s, Eff.nil)

/-- `forwardAudioDelta`: returns early on a falsy streamSid; a falsy
`responseStartMs` (absent or zero) is replaced by the current media
offset; a present item id is recorded; the audio and mark frames go to
telephony through `safeSend`. -/
def forwardAudioDelta (s : Session1) (itemId : Option String) (delta : String) :
    Session1 × Eff :=
  if s.streamSid = "" then (s, Eff.nil)
  else
    let s1 := if s.responseStartMs = none ∨ s.responseStartMs = some 0
              then { s with responseStartMs := s.latestMediaTs } else s
    let s2 := match itemId with
              | some i => { s1 with lastAssistantItem := some i }
              | none => s1
    (s2, { Eff.nil with
           toTwilio := safeSendTw s2.twilioReady (TwilioOut.media s2.streamSid delta)
                       ++ safeSendTw s2.twilioReady (TwilioOut.mark s2.streamSid) })

/-- `finishTurn`: broadcast the final assistant text when truthy, return
to LISTENING, clear the turn start offset, `safeSend` the buffer reset. -/
def finishTurn (s : Session1) (transcript : Option String) : Session1 × Eff :=
  let agentEff := match transcript with
    | some t => if t ≠ "" then broadcastTo s.frontends (FrontMsg.agentText s.streamSid t)
                else []
    | none => []
  ({ s with state := Phase.LISTENING, responseStartMs := none },
   { Eff.nil with toFrontends := agentEff,
                  toOpenai := safeSendOAI s.openai OAIOut.reset })

/-- `handleFunctionCall` up to the two `safeSend` calls: no registered
handler of that exact name, or unparseable arguments, produce no frames;
a handler failure is caught and becomes the structured error output,
followed by the instruction to continue the response. -/
def dispatchFunctionCall (fns : List FunctionDef) (nm callId : String)
    (args : Option String) : List OAIOut :=
  match fns.find? (fun f => f.name = nm) with
  | none => []
  | some d =>
      match args with
      | none => []
      | some a =>
          let output : FnResult :=
            match d.handler a with
            | Except.ok v => FnResult.ok v
            | Except.error m => FnResult.err m
          [OAIOut.itemCreateFunctionOutput callId output, OAIOut.responseCreate]

/-- The switch of `handleOpenAI` after the parse and the relay broadcast. -/
def handleOpenAIParsed (fns : List FunctionDef) (s : Session1) (ev : OAIRaw) :
    Session1 × Eff :=
  match ev with
  | OAIRaw.transcriptionCompleted t =>
      match t with
      | some txt =>
          if txt ≠ "" then
            (s, { Eff.nil with
                  toFrontends := broadcastTo s.frontends (FrontMsg.userText s.streamSid txt) })
          else (s, Eff.nil)
      | none => (s, Eff.nil)
  | OAIRaw.speechStarted => handleTruncation s
  | OAIRaw.audioDelta itemId delta => forwardAudioDelta s itemId delta
  | OAIRaw.outputItemDoneFn nm callId args =>
      (s, { Eff.nil with
            toOpenai := match s.openai with
                        | some ReadyState.OPEN => dispatchFunctionCall fns nm callId args
                        | _ => [] })
  | OAIRaw.responseDone tr => finishTurn s tr
  | _ => (s, Eff.nil)

/-- `handleOpenAI` of revision 1: parse failure returns silently before
the broadcast; otherwise the raw event is relayed to the frontends and
the switch runs. -/
def handleOpenAI (fns : List FunctionDef) (s : Session1) (raw : OAIRaw) :
    Session1 × Eff :=
  match raw with
  | OAIRaw.malformed _ => (s, Eff.nil)
  | ev =>
      let r := handleOpenAIParsed fns s ev
      (r.1, { r.2 with
              toFrontends := broadcastTo s.frontends FrontMsg.relayedBackendEvent
                             ++ r.2.toFrontends })

/-- A message event on the backend socket: the once-listener registered by
`commitAudio` clears the response-timeout killer (for any frame, parseable
or not), and `handleOpenAI` runs. -/
def onOpenAIMessage (fns : List FunctionDef) (s : Session1) (raw : OAIRaw) :
    Session1 × Eff :=
  handleOpenAI fns { s with killerArmed := false } raw

/-- `close()` as called on an OPEN socket: readyState becomes CLOSING
synchronously; sockets in another state are left untouched. -/
def closeIfOpen (r : ReadyState) : ReadyState :=
  if r = ReadyState.OPEN then ReadyState.CLOSING else r

/-- Global state: the session plus the keys present in `sessionPool`. -/
structure World where
  session : Session1
  registry : List String
deriving DecidableEq, Repr

/-- `cleanup` of revision 1: close each of the three connection slots when
OPEN, cancel the heartbeat, delete the current streamSid from the pool,
then broadcast the end-of-conversation payload (which reaches no
frontend, because the frontends were just closed). -/
def cleanup (w : World) (_reason : String) : World × Eff :=
  let s := w.session
  let twilioCloses : List String :=
    if s.twilioReady = ReadyState.OPEN then ["twilio"] else []
  let openaiCloses : List String :=
    match s.openai with
    | some ReadyState.OPEN => ["openai"]
    | _ => []
  let frontendCloses : List String :=
    (s.frontends.filter (fun r => decide (r = ReadyState.OPEN))).map (fun _ => "frontend")
  let s1 : Session1 :=
    { s with twilioReady := closeIfOpen s.twilioReady,
             openai := s.openai.map closeIfOpen,
             frontends := s.frontends.map closeIfOpen,
             heartbeatActive := false }
  ({ session := s1,
     registry := w.registry.filter (fun x => decide (x ≠ s.streamSid)) },
   { Eff.nil with
     toFrontends := broadcastTo s1.frontends (FrontMsg.conversationEnded s.streamSid),
     closes := twilioCloses ++ openaiCloses ++ frontendCloses })

/-- Serialized session events of revision 1: frames on either leg, the
backend open event (which sends the configuration handshake and drains
the buffer), the response-timeout killer firing, and the close events
that run `cleanup`. -/
inductive Ev
  | fromTwilio (raw : TwilioRaw)
  | openaiOpened
  | fromOpenAI (raw : OAIRaw)
  | killerFired
  | openaiClosed
  | twilioClosed

/-- Events that neither fire the killer nor close a leg. -/
def Ev.nonClosing : Ev → Bool
  | Ev.killerFired => false
  | Ev.openaiClosed => false
  | Ev.twilioClosed => false
  | _ => true

/-- One serialized event step against the world. -/
def stepEv (fns : List FunctionDef) (w : World) (e : Ev) : World × Eff :=
  match e with
  | Ev.fromTwilio raw =>
      let r := handleTwilio w.session raw
      ({ w with session := r.1 }, r.2)
  | Ev.openaiOpened =>
      match w.session.openai with
      | none => (w, Eff.nil)
      | some _ =>
          let drained := w.session.buffer
          ({ w with session := { w.session with openai := some ReadyState.OPEN,
                                                buffer := [] } },
           { Eff.nil with toOpenai := OAIOut.sessionUpdate :: drained })
  | Ev.fromOpenAI raw =>
      let r := onOpenAIMessage fns w.session raw
      ({ w with session := r.1 }, r.2)
  | Ev.killerFired =>
      if w.session.killerArmed then
        if w.session.openai = some ReadyState.OPEN then
          ({ w with session := { w.session with killerArmed := false,
                                                openai := some ReadyState.CLOSING } },
           { Eff.nil with closes := ["openai"] })
        else ({ w with session := { w.session with killerArmed := false } }, Eff.nil)
      else (w, Eff.nil)
  | Ev.openaiClosed =>
      match w.session.openai with
      | none => (w, Eff.nil)
      | some _ =>
          cleanup { w with session := { w.session with openai := some ReadyState.CLOSED } }
            "openai closed"
  | Ev.twilioClosed =>
      cleanup { w with session := { w.session with twilioReady := ReadyState.CLOSED } }
        "twilio closed"

/-- Run a list of events, collecting the per-step effect records. -/
def runEv (fns : List FunctionDef) (w : World) : List Ev → World × List Eff
  | [] => (w, [])
  | e :: rest =>
      let r := stepEv fns w e
      let rr := runEv fns r.1 rest
      (rr.1, r.2 :: rr.2)

/-- The successive worlds reached after each event of a run. -/
def statesAlong (fns : List FunctionDef) (w : World) : List Ev → List World
  | [] => []
  | e :: rest =>
      let w1 := (stepEv fns w e).1
      w1 :: statesAlong fns w1 rest

/-- The list of media events built from (timestamp, payload) pairs. -/
def mediaEvs (ms : List (Int × String)) : List Ev :=
  ms.map (fun p => Ev.fromTwilio (TwilioRaw.media p.1 "" p.2))

/-- The append frames those media events carry, in arrival order. -/
def appendsOf (ms : List (Int × String)) : List OAIOut :=
  ms.map (fun p => OAIOut.append p.2)

/-! Revision 2 of the bridge (the `transcript` accumulator with the
watchdog, streamSid adoption from the first media frame, and the
teardown in `twilioWs.on(close)`). -/

/-- Session entry of revision 2 (`interface Session`): streamSid starts
as null, the transcript accumulates User/Agent lines. -/
structure SessionV2 where
  streamSid : Option String
  transcript : String
deriving DecidableEq, Repr

/-- Per-connection state of revision 2: the sessions-map entry for this
sessionId (none once deleted by the close handler), the backend socket
readyState, the `gotStart` flag, and the pending 5-second watchdog. -/
structure ConnV2 where
  sess : Option SessionV2
  openAiReady : ReadyState
  gotStart : Bool
  wdActive : Bool
deriving DecidableEq, Repr

/-- Outbound telephony frame of revision 2 (only media frames are sent;
streamSid is nullable because the handler does not wait for it). -/
structure MediaOutV2 where
  streamSid : Option String
  payload : String
deriving DecidableEq, Repr

/-- Observable side effects of one handler invocation in revision 2. -/
structure EffV2 where
  toOpenai : List OAIOut
  toTwilio : List MediaOutV2
  transcriptDelivered : List String
  terminated : List String
deriving DecidableEq, Repr

/-- No side effects. -/
def EffV2.nil : EffV2 := ⟨[], [], [], []⟩

/-- The current streamSid of the connection, when its session entry
still exists. -/
def ConnV2.sidOf (c : ConnV2) : Option (Option String) :=
  c.sess.map (fun s => s.streamSid)

/-- `twilioWs.on(message)` of revision 2.  `JSON.parse` runs without a
try/catch, so a malformed frame raises (the error value models the
SyntaxError escaping the handler).  `start` clears the watchdog and
records streamSid; a `media` frame seen before any `start` adopts the
top-level streamSid; audio is forwarded only while the backend socket is
OPEN (never buffered in this revision); the non-null assertion on the
sessions-map entry raises a TypeError when the entry was deleted. -/
def onTwilioMessageV2 (c : ConnV2) (raw : TwilioRaw) :
    Except String (ConnV2 × EffV2) :=
  match raw with
  | TwilioRaw.malformed _ => Except.error "SyntaxError"
  | TwilioRaw.start sid =>
      match c.sess with
      | none => Except.error "TypeError"
      | some s =>
          Except.ok ({ c with wdActive := false, gotStart := true,
                              sess := some { s with streamSid := some sid } },
                     EffV2.nil)
  | TwilioRaw.media _ topSid payload =>
      if c.gotStart then
        Except.ok (c, { EffV2.nil with
                        toOpenai := if c.openAiReady = ReadyState.OPEN
                                    then [OAIOut.append payload] else [] })
      else
        match c.sess with
        | none => Except.error "TypeError"
        | some s =>
            let c1 := { c with wdActive := false, gotStart := true,
                               sess := some { s with streamSid := some topSid } }
            Except.ok (c1, { EffV2.nil with
                             toOpenai := if c1.openAiReady = ReadyState.OPEN
                                         then [OAIOut.append payload] else [] })
  | TwilioRaw.stop => Except.ok (c, EffV2.nil)
  | TwilioRaw.other => Except.ok (c, EffV2.nil)

/-- `openAiWs.on(message)` of revision 2: parse failure is caught and
logged; a deleted session entry returns early; user transcription lines
(trimmed, when non-empty) and agent lines (with an ellipsis fallback)
are appended to the transcript; audio deltas are relayed to telephony
tagged with the current (possibly null) streamSid. -/
def onOpenAIMessageV2 (c : ConnV2) (raw : OAIRaw) : ConnV2 × EffV2 :=
  match raw with
  | OAIRaw.malformed _ => (c, EffV2.nil)
  | ev =>
      match c.sess with
      | none => (c, EffV2.nil)
      | some s =>
          match ev with
          | OAIRaw.transcriptionCompleted t =>
              let user := (t.getD "").trim
              if user ≠ "" then
                let s1 := { s with transcript := s.transcript ++ "User: " ++ user ++ "\n" }
                ({ c with sess := some s1 }, EffV2.nil)
              else (c, EffV2.nil)
          | OAIRaw.responseDone tr =>
              let agent := tr.getD "…"
              let s1 := { s with transcript := s.transcript ++ "Agent: " ++ agent ++ "\n" }
              ({ c with sess := some s1 }, EffV2.nil)
          | OAIRaw.audioDelta _ delta =>
              if delta ≠ "" then
                (c, { EffV2.nil with toTwilio := [⟨s.streamSid, delta⟩] })
              else (c, EffV2.nil)
          | _ => (c, EffV2.nil)

/-- `twilioWs.on(close)` of revision 2: terminate the backend socket
while its readyState is at most CLOSING, then, when the sessions-map
entry still exists, hand the accumulated transcript to the external
post-processing sink and delete the entry. -/
def onTwilioCloseV2 (c : ConnV2) : ConnV2 × EffV2 :=
  let term := readyNum c.openAiReady ≤ 2
  let oai := if term then ReadyState.CLOSED else c.openAiReady
  let termEff : List String := if term then ["openai"] else []
  match c.sess with
  | some s =>
      ({ c with openAiReady := oai, sess := none },
       ⟨[], [], [s.transcript], termEff⟩)
  | none => ({ c with openAiReady := oai }, ⟨[], [], [], termEff⟩)

/-- Serialized events of revision 2. -/
inductive EvV2
  | fromTwilio (raw : TwilioRaw)
  | fromOpenAI (raw : OAIRaw)

/-- One event step of revision 2; a step on the telephony leg can raise. -/
def stepV2 (c : ConnV2) (e : EvV2) : Except String (ConnV2 × EffV2) :=
  match e with
  | EvV2.fromTwilio raw => onTwilioMessageV2 c raw
  | EvV2.fromOpenAI raw => Except.ok (onOpenAIMessageV2 c raw)

/-- Run a list of revision-2 events, collecting the outbound telephony
frames; the run stops at the first raised error. -/
def runV2 (c : ConnV2) : List EvV2 → Except String (ConnV2 × List MediaOutV2)
  | [] => Except.ok (c, [])
  | e :: rest =>
      match stepV2 c e with
      | Except.error m => Except.error m
      | Except.ok (c1, eff) =>
          match runV2 c1 rest with
          | Except.error m => Except.error m
          | Except.ok (c2, outs) => Except.ok (c2, eff.toTwilio ++ outs)

/-- Events allowed in the continuation of the streamSid-adoption claim:
no further `start` event and no malformed telephony frame. -/
def EvV2.allowedAfterAdoption : EvV2 → Bool
  | EvV2.fromTwilio (TwilioRaw.start _) => false
  | EvV2.fromTwilio (TwilioRaw.malformed _) => false
  | _ => true

/-- The run of the streamSid-adoption scenario: the backend events that
precede any telephony frame, then the first media frame, then an
arbitrary continuation; the collected outputs are those of the
continuation only. -/
def runAfterAdoption (c0 : ConnV2) (pre : List OAIRaw) (ts : Int)
    (psid payload : String) (post : List EvV2) :
    Except String (ConnV2 × List MediaOutV2) :=
  match runV2 c0 (pre.map EvV2.fromOpenAI) with
  | Except.error m => Except.error m
  | Except.ok (c1, _) =>
      match stepV2 c1 (EvV2.fromTwilio (TwilioRaw.media ts psid payload)) with
      | Except.error m => Except.error m
      | Except.ok (c2, _) => runV2 c2 post

/-! Concrete states used to evaluate the claims on explicit inputs. -/

/-- A session of revision 1 in the middle of an assistant turn: phase
RESPONDING, an in-flight assistant item, turn start offset 10, latest
media offset 150, both legs OPEN. -/
def respondingSession : Session1 :=
  { twilioReady := ReadyState.OPEN
    openai := some ReadyState.OPEN
    frontends := []
    state := Phase.RESPONDING
    streamSid := "S"
    buffer := []
    lastAssistantItem := some "item-1"
    responseStartMs := some 10
    latestMediaTs := some 150
    heartbeatActive := true
    killerArmed := false }

/-- A fresh session of revision 1 right after the telephony connection
was accepted: phase IDLE, backend socket already created and connecting. -/
def connectingWorld : World :=
  { session :=
      { twilioReady := ReadyState.OPEN
        openai := some ReadyState.CONNECTING
        frontends := []
        state := Phase.IDLE
        streamSid := "CA1"
        buffer := []
        lastAssistantItem := none
        responseStartMs := none
        latestMediaTs := none
        heartbeatActive := true
        killerArmed := false }
    registry := ["CA1"] }

/-- The event trace showing that the pending-audio buffer refills after
the drain once the response-timeout guard has closed the backend socket:
start, one media frame (buffered), backend open (drain), stop (commit,
guard armed), guard fires (socket closed), one more media frame. -/
def refillTrace : List Ev :=
  [ Ev.fromTwilio (TwilioRaw.start "S1")
  , Ev.fromTwilio (TwilioRaw.media 10 "" "p1")
  , Ev.openaiOpened
  , Ev.fromTwilio (TwilioRaw.stop)
  , Ev.killerFired
  , Ev.fromTwilio (TwilioRaw.media 20 "" "p2") ]

/-- A session of revision 1 that has just committed the caller audio:
phase RESPONDING, response-timeout guard armed, backend socket OPEN. -/
def committedWorld : World :=
  { session :=
      { twilioReady := ReadyState.OPEN
        openai := some ReadyState.OPEN
        frontends := []
        state := Phase.RESPONDING
        streamSid := "S4"
        buffer := []
        lastAssistantItem := none
        responseStartMs := none
        latestMediaTs := some 100
        heartbeatActive := true
        killerArmed := true }
    registry := ["S4"] }

/-- A session of revision 1 in LISTENING whose streamSid was set to A by
an earlier start event. -/
def listeningSessionA : Session1 :=
  { twilioReady := ReadyState.OPEN
    openai := some ReadyState.OPEN
    frontends := []
    state := Phase.LISTENING
    streamSid := "A"
    buffer := []
    lastAssistantItem := none
    responseStartMs := none
    latestMediaTs := some 0
    heartbeatActive := true
    killerArmed := false }

/-- A session of revision 1 in LISTENING with no backend socket object. -/
def listeningNoBackend : Session1 :=
  { twilioReady := ReadyState.OPEN
    openai := none
    frontends := []
    state := Phase.LISTENING
    streamSid := "S10"
    buffer := []
    lastAssistantItem := none
    responseStartMs := none
    latestMediaTs := some 7
    heartbeatActive := true
    killerArmed := false }

/-- A fresh connection of revision 2: session entry present with null
streamSid and empty transcript, backend socket OPEN, no start seen yet,
watchdog pending. -/
def freshConnV2 : ConnV2 :=
  { sess := some { streamSid := none, transcript := "" }
    openAiReady := ReadyState.OPEN
    gotStart := false
    wdActive := true }

/-- A one-entry tool registry whose handler always raises. -/
def failingFns : List FunctionDef :=
  [ { name := "lookupOrder", handler := fun _ => Except.error "boom" } ]

/-! ## Theorems -/

/-- C1 counterexample: in phase RESPONDING with a recorded assistant item
and turn start offset, processing the backend speech-started event does
send the truncate request and the clear instruction and does clear the
assistant item, but the phase does NOT transition to LISTENING — it
stays RESPONDING, refuting the claimed transition. -/
theorem c1_counterexample :
    (onOpenAIMessage [] respondingSession OAIRaw.speechStarted).2.toOpenai
        = [OAIOut.truncate "item-1" 0 140] ∧
    (onOpenAIMessage [] respondingSession OAIRaw.speechStarted).2.toTwilio
        = [TwilioOut.clear "S"] ∧
    (onOpenAIMessage [] respondingSession OAIRaw.speechStarted).1.lastAssistantItem = none ∧
    (onOpenAIMessage [] respondingSession OAIRaw.speechStarted).1.state ≠ Phase.LISTENING := by
  decide

/-- C1 (amended): for every RESPONDING session with a recorded assistant
item and turn start offset and both legs open, the speech-started event
sends the truncate request bounded by the clamped elapsed playback,
sends the clear instruction carrying the streamSid, clears the assistant
item, and leaves the phase unchanged at RESPONDING. -/
theorem c1_truncation_effects (fns : List FunctionDef) (s : Session1)
    (item : String) (t0 : Int)
    (hPhase : s.state = Phase.RESPONDING)
    (hItem : s.lastAssistantItem = some item)
    (hT0 : s.responseStartMs = some t0)
    (hOai : s.openai = some ReadyState.OPEN)
    (hTw : s.twilioReady = ReadyState.OPEN) :
    (onOpenAIMessage fns s OAIRaw.speechStarted).2.toOpenai
        = [OAIOut.truncate item 0
            (if s.latestMediaTs.getD 0 - t0 > 0 then s.latestMediaTs.getD 0 - t0 else 0)] ∧
    (onOpenAIMessage fns s OAIRaw.speechStarted).2.toTwilio
        = [TwilioOut.clear s.streamSid] ∧
    (onOpenAIMessage fns s OAIRaw.speechStarted).1.lastAssistantItem = none ∧
    (onOpenAIMessage fns s OAIRaw.speechStarted).1.state = Phase.RESPONDING := by
  simp [onOpenAIMessage, handleOpenAI, handleOpenAIParsed, handleTruncation,
        safeSendTw, hItem, hT0, hOai, hTw, hPhase]

/-- C1 witness: the amended truncation behavior evaluated on a concrete
session. -/
theorem c1_truncation_effects_witness :
    (onOpenAIMessage [] respondingSession OAIRaw.speechStarted).2.toTwilio
        = [TwilioOut.clear "S"] ∧
    (onOpenAIMessage [] respondingSession OAIRaw.speechStarted).1.state
        = Phase.RESPONDING := by
  have h := c1_truncation_effects [] respondingSession "item-1" 10 rfl rfl rfl rfl rfl
  exact ⟨h.2.1, h.2.2.2⟩

/-- C2: with turn start offset T0 and latest media offset T1 at the
moment a speech-started event is processed in phase RESPONDING, the
truncate request carries audio end offset T1 - T0 when positive and 0
otherwise. -/
theorem c2_truncate_clamp (fns : List FunctionDef) (s : Session1)
    (item : String) (t0 t1 : Int)
    (hPhase : s.state = Phase.RESPONDING)
    (hItem : s.lastAssistantItem = some item)
    (hT0 : s.responseStartMs = some t0)
    (hT1 : s.latestMediaTs = some t1)
    (hOai : s.openai = some ReadyState.OPEN) :
    (onOpenAIMessage fns s OAIRaw.speechStarted).2.toOpenai
        = [OAIOut.truncate item 0 (if t1 - t0 > 0 then t1 - t0 else 0)] := by
  simp [onOpenAIMessage, handleOpenAI, handleOpenAIParsed, handleTruncation,
        hItem, hT0, hT1, hOai]

/-- C2 witness: T0 = 10, T1 = 150 yields audio end offset 140. -/
theorem c2_truncate_clamp_witness :
    (onOpenAIMessage [] respondingSession OAIRaw.speechStarted).2.toOpenai
        = [OAIOut.truncate "item-1" 0 140] := by
  have h := c2_truncate_clamp [] respondingSession "item-1" 10 150 rfl rfl rfl rfl rfl
  simpa using h

/-- C6: revision 1 drops a malformed frame on either leg and returns
normally, but the revision-2 telephony message handler parses without a
try/catch, so the same malformed frame raises a SyntaxError past the
handler boundary. -/
theorem c6_decode_failure_boundary :
    onTwilioMessageV2 freshConnV2 (TwilioRaw.malformed "not-json")
        = Except.error "SyntaxError" ∧
    (∀ s : Session1, handleTwilio s (TwilioRaw.malformed "not-json") = (s, Eff.nil)) ∧
    (∀ (fns : List FunctionDef) (s : Session1),
        handleOpenAI fns s (OAIRaw.malformed "not-json") = (s, Eff.nil)) :=
  ⟨rfl, fun _ => rfl, fun _ _ => rfl⟩

/-- C8 counterexample: a session whose streamSid was already set to A
has it overwritten to B by a further start event, refuting that the
streamSid never changes once set. -/
theorem c8_counterexample :
    listeningSessionA.streamSid = "A" ∧
    (handleTwilio listeningSessionA (TwilioRaw.start "B")).1.streamSid = "B" ∧
    ("B" : String) ≠ "A" := by
  decide

/-- C8 (amended): the streamSid changes only when a start event is
processed, and then to exactly that event streamSid; media, stop,
unrecognized and malformed telephony frames leave it unchanged. -/
theorem c8_streamsid_start_only (s : Session1) (raw : TwilioRaw) :
    (handleTwilio s raw).1.streamSid
      = (match raw with
         | TwilioRaw.start sid => sid
         | _ => s.streamSid) := by
  cases raw with
  | start sid =>
      simp only [handleTwilio, openOpenAI]
      cases s.openai <;> simp
  | media ts sid pl =>
      simp only [handleTwilio]
      split <;> simp
  | stop =>
      simp only [handleTwilio, commitAudio]
      split
      · simp
      · cases s.openai <;> simp
  | other => simp [handleTwilio]
  | malformed r => simp [handleTwilio]

/-- C9: the tool-call dispatcher sends nothing when no handler has the
requested name; a handler failure is caught and delivered as the
structured error output followed by the continue-response instruction;
and the session state survives every function-call request unchanged. -/
theorem c9_dispatcher (fns : List FunctionDef) (nm callId : String)
    (args : Option String) :
    (fns.find? (fun f => f.name = nm) = none →
        dispatchFunctionCall fns nm callId args = []) ∧
    (∀ (d : FunctionDef) (a m : String),
        fns.find? (fun f => f.name = nm) = some d → args = some a →
        d.handler a = Except.error m →
        dispatchFunctionCall fns nm callId args
          = [OAIOut.itemCreateFunctionOutput callId (FnResult.err m),
             OAIOut.responseCreate]) ∧
    (∀ s : Session1,
        (onOpenAIMessage fns s (OAIRaw.outputItemDoneFn nm callId args)).1
          = { s with killerArmed := false }) := by
  refine ⟨fun h => by simp [dispatchFunctionCall, h],
          fun d a m hf ha hh => by simp [dispatchFunctionCall, hf, ha, hh],
          fun s => by simp [onOpenAIMessage, handleOpenAI, handleOpenAIParsed]⟩

/-- C9 witness: with a registry holding one always-raising handler, an
unknown name produces no frames and the known name produces the error
output plus the continue instruction. -/
theorem c9_dispatcher_witness :
    dispatchFunctionCall failingFns "nope" "c1" (some "a") = [] ∧
    dispatchFunctionCall failingFns "lookupOrder" "c2" (some "a")
      = [OAIOut.itemCreateFunctionOutput "c2" (FnResult.err "boom"),
         OAIOut.responseCreate] := by
  refine ⟨(c9_dispatcher failingFns "nope" "c1" (some "a")).1 rfl,
          (c9_dispatcher failingFns "lookupOrder" "c2" (some "a")).2.1
            { name := "lookupOrder", handler := fun _ => Except.error "boom" }
            "a" "boom" rfl rfl rfl⟩

/-- C10: a stop event processed in LISTENING with no backend socket
object still moves the phase to RESPONDING, while sending nothing and
arming no response-timeout guard (the whole result is exactly the phase
change). -/
theorem c10_stop_without_backend (s : Session1)
    (hPhase : s.state = Phase.LISTENING) (hOai : s.openai = none) :
    handleTwilio s TwilioRaw.stop = ({ s with state := Phase.RESPONDING }, Eff.nil) := by
  simp [handleTwilio, commitAudio, hPhase, hOai]

/-- C10 witness: the stop transition without a backend socket evaluated
on a concrete session. -/
theorem c10_stop_without_backend_witness :
    handleTwilio listeningNoBackend TwilioRaw.stop
      = ({ listeningNoBackend with state := Phase.RESPONDING }, Eff.nil) :=
  c10_stop_without_backend listeningNoBackend rfl rfl

/-- Closing a socket twice through the OPEN check is the same as once. -/
theorem closeIfOpen_idem (r : ReadyState) :
    closeIfOpen (closeIfOpen r) = closeIfOpen r := by
  cases r <;> decide

/-- A socket that went through the close step is never OPEN. -/
theorem closeIfOpen_not_open (r : ReadyState) :
    closeIfOpen r ≠ ReadyState.OPEN := by
  cases r <;> decide

/-- Closing every frontend twice is the same as once. -/
theorem map_closeIfOpen_idem (l : List ReadyState) :
    (l.map closeIfOpen).map closeIfOpen = l.map closeIfOpen := by
  induction l with
  | nil => rfl
  | cons a t ih => simp [List.map_cons, ih, closeIfOpen_idem]

/-- Closing an optional socket twice is the same as once. -/
theorem opt_map_closeIfOpen_idem (o : Option ReadyState) :
    (o.map closeIfOpen).map closeIfOpen = o.map closeIfOpen := by
  cases o <;> simp [closeIfOpen_idem]

/-- Filtering for OPEN sockets yields nothing when none is OPEN. -/
theorem filter_open_nil (l : List ReadyState)
    (h : ∀ a ∈ l, a ≠ ReadyState.OPEN) :
    l.filter (fun r => decide (r = ReadyState.OPEN)) = [] := by
  induction l with
  | nil => rfl
  | cons a t ih =>
      have ha := h a (by simp)
      have ht : ∀ b ∈ t, b ≠ ReadyState.OPEN := fun b hb => h b (by simp [hb])
      simp [List.filter_cons, ha, ih ht]

/-- After the close step, no frontend in the list is OPEN. -/
theorem frontends_closed_all (l : List ReadyState) :
    ∀ a ∈ l.map closeIfOpen, a ≠ ReadyState.OPEN := by
  intro a ha
  simp only [List.mem_map] at ha
  obtain ⟨b, _, hb⟩ := ha
  exact hb ▸ closeIfOpen_not_open b

/-- Broadcasting to closed frontends reaches nobody. -/
theorem broadcast_closed (l : List ReadyState) (p : FrontMsg) :
    broadcastTo (l.map closeIfOpen) p = [] := by
  unfold broadcastTo
  rw [filter_open_nil _ (frontends_closed_all l)]
  rfl

/-- Composition form of the double-close lemma for optional sockets. -/
theorem opt_map_comp_closeIfOpen (o : Option ReadyState) :
    o.map (closeIfOpen ∘ closeIfOpen) = o.map closeIfOpen := by
  cases o <;> simp [Function.comp, closeIfOpen_idem]

/-- Composition form of the double-close lemma for socket lists. -/
theorem list_map_comp_closeIfOpen (l : List ReadyState) :
    l.map (closeIfOpen ∘ closeIfOpen) = l.map closeIfOpen := by
  induction l with
  | nil => rfl
  | cons a t ih => simp [Function.comp, closeIfOpen_idem, ih]

/-- Filtering a list twice with the same predicate is the same as once. -/
theorem filter_idem {α : Type} (p : α → Bool) (l : List α) :
    (l.filter p).filter p = l.filter p := by
  induction l with
  | nil => rfl
  | cons a t ih => cases hpa : p a <;> simp [List.filter_cons, hpa, ih]

/-- After the close step of revision 1, the openai slot is never matched
as OPEN again. -/
theorem openai_closes_after (o : Option ReadyState) :
    (match o.map closeIfOpen with
     | some ReadyState.OPEN => ["openai"]
     | _ => ([] : List String)) = [] := by
  cases o with
  | none => rfl
  | some r => cases r <;> rfl

/-- C5: teardown is idempotent on both cited paths.  Revision 1
`cleanup` run twice reaches the same state as run once, and the second
run attempts no close and broadcasts nothing; one run removes the
current streamSid key from the registry.  The revision 2
`twilioWs.on(close)` handler run twice reaches the same state as run
once, the second run terminates nothing and delivers no transcript, and
one run delivers the transcript at most once. -/
theorem c5_teardown_idempotent (w : World) (reason : String) (c : ConnV2) :
    (cleanup (cleanup w reason).1 reason).1 = (cleanup w reason).1 ∧
    (cleanup (cleanup w reason).1 reason).2.closes = [] ∧
    (cleanup (cleanup w reason).1 reason).2.toFrontends = [] ∧
    (cleanup w reason).1.registry
        = w.registry.filter (fun x => decide (x ≠ w.session.streamSid)) ∧
    (onTwilioCloseV2 (onTwilioCloseV2 c).1).1 = (onTwilioCloseV2 c).1 ∧
    (onTwilioCloseV2 (onTwilioCloseV2 c).1).2.terminated = [] ∧
    (onTwilioCloseV2 (onTwilioCloseV2 c).1).2.transcriptDelivered = [] ∧
    (onTwilioCloseV2 c).2.transcriptDelivered.length ≤ 1 := by
  refine ⟨?_, ?_, ?_, ?_, ?_, ?_, ?_, ?_⟩
  · simp [cleanup, closeIfOpen_idem, map_closeIfOpen_idem, opt_map_closeIfOpen_idem,
          opt_map_comp_closeIfOpen, list_map_comp_closeIfOpen, filter_idem]
  · simp [cleanup, closeIfOpen_not_open, openai_closes_after,
          filter_open_nil _ (frontends_closed_all _)]
  · simp [cleanup, broadcast_closed, map_closeIfOpen_idem, list_map_comp_closeIfOpen]
  · simp [cleanup]
  · cases hc : c.sess <;> cases hr : c.openAiReady <;>
      simp [onTwilioCloseV2, readyNum, hc, hr]
  · cases hc : c.sess <;> cases hr : c.openAiReady <;>
      simp [onTwilioCloseV2, readyNum, hc, hr]
  · cases hc : c.sess <;> cases hr : c.openAiReady <;>
      simp [onTwilioCloseV2, readyNum, hc, hr]
  · cases hc : c.sess <;> simp [onTwilioCloseV2, hc]

/-- Processing a backend frame leaves the audio buffer, the backend
socket slot, the armed killer flag and the streamSid untouched. -/
theorem handleOpenAI_preserves (fns : List FunctionDef) (s : Session1) (raw : OAIRaw) :
    (handleOpenAI fns s raw).1.buffer = s.buffer ∧
    (handleOpenAI fns s raw).1.openai = s.openai ∧
    (handleOpenAI fns s raw).1.killerArmed = s.killerArmed ∧
    (handleOpenAI fns s raw).1.streamSid = s.streamSid := by
  cases raw with
  | transcriptionCompleted t =>
      cases t with
      | none => simp [handleOpenAI, handleOpenAIParsed]
      | some txt =>
          by_cases h : txt = "" <;> simp [handleOpenAI, handleOpenAIParsed, h]
  | speechStarted =>
      simp only [handleOpenAI, handleOpenAIParsed]
      unfold handleTruncation
      split <;> simp
  | audioDelta itemId delta =>
      simp only [handleOpenAI, handleOpenAIParsed]
      unfold forwardAudioDelta
      split
      · simp
      · split <;> cases itemId <;> simp
  | outputItemDoneFn nm cid args => simp [handleOpenAI, handleOpenAIParsed]
  | outputItemDoneOther => simp [handleOpenAI, handleOpenAIParsed]
  | responseDone tr => simp [handleOpenAI, handleOpenAIParsed, finishTurn]
  | other => simp [handleOpenAI, handleOpenAIParsed]
  | malformed r => simp [handleOpenAI]

/-- C4 counterexample: from a session that has just committed (guard
armed, backend OPEN), a backend frame that is not response.done — an
audio delta — cancels the guard, so the firing moment closes nothing and
the connection stays OPEN although no response.done ever arrived; and
when the guard does fire and the close event follows, the session is
torn down with its phase still RESPONDING and removed from the registry,
never returning to LISTENING. -/
theorem c4_counterexample :
    (runEv [] committedWorld
        [Ev.fromOpenAI (OAIRaw.audioDelta none "d"), Ev.killerFired]).1.session.openai
      = some ReadyState.OPEN ∧
    (runEv [] committedWorld [Ev.killerFired, Ev.openaiClosed]).1.session.state
      = Phase.RESPONDING ∧
    (runEv [] committedWorld [Ev.killerFired, Ev.openaiClosed]).1.registry = [] := by
  decide

/-- C4 (amended): any backend frame cancels the response-timeout guard;
when the guard fires with the guard still armed and the backend socket
OPEN, the socket is closed (and only it); the subsequent close event
removes the current streamSid from the registry and leaves the phase
field unchanged (no return to LISTENING). -/
theorem c4_response_timeout (fns : List FunctionDef) (w : World) (raw : OAIRaw) :
    (onOpenAIMessage fns w.session raw).1.killerArmed = false ∧
    (w.session.killerArmed = true → w.session.openai = some ReadyState.OPEN →
      stepEv fns w Ev.killerFired
        = ({ w with session := { w.session with killerArmed := false, openai := some ReadyState.CLOSING } },
           { Eff.nil with closes := ["openai"] })) ∧
    (∀ r : ReadyState, w.session.openai = some r →
      (stepEv fns w Ev.openaiClosed).1.registry
          = w.registry.filter (fun x => decide (x ≠ w.session.streamSid)) ∧
      (stepEv fns w Ev.openaiClosed).1.session.state = w.session.state) := by
  refine ⟨?_, ?_, ?_⟩
  · have h := handleOpenAI_preserves fns { w.session with killerArmed := false } raw
    simpa [onOpenAIMessage] using h.2.2.1
  · intro hArm hOai
    simp [stepEv, hArm, hOai]
  · intro r hOai
    constructor <;> simp [stepEv, hOai, cleanup]

/-- Processing a telephony frame while the backend socket is OPEN keeps
it OPEN and leaves the audio buffer untouched. -/
theorem handleTwilio_open_preserves (s : Session1) (raw : TwilioRaw)
    (hOai : s.openai = some ReadyState.OPEN) :
    (handleTwilio s raw).1.openai = some ReadyState.OPEN ∧
    (handleTwilio s raw).1.buffer = s.buffer := by
  cases raw with
  | start sid => simp [handleTwilio, openOpenAI, hOai]
  | media ts sid pl => simp [handleTwilio, hOai]
  | stop =>
      simp only [handleTwilio]
      split
      · simp [hOai]
      · simp [commitAudio, hOai]
  | other => simp [handleTwilio, hOai]
  | malformed r => simp [handleTwilio, hOai]

/-- Every event that neither fires the killer nor closes a leg keeps the
backend socket OPEN and the audio buffer empty. -/
theorem stepEv_open_empty (fns : List FunctionDef) (w : World) (e : Ev)
    (hne : e.nonClosing = true)
    (hOai : w.session.openai = some ReadyState.OPEN)
    (hBuf : w.session.buffer = []) :
    (stepEv fns w e).1.session.openai = some ReadyState.OPEN ∧
    (stepEv fns w e).1.session.buffer = [] := by
  cases e with
  | fromTwilio raw =>
      have h := handleTwilio_open_preserves w.session raw hOai
      simp [stepEv, h.1, h.2, hBuf]
  | openaiOpened => simp [stepEv, hOai]
  | fromOpenAI raw =>
      have h := handleOpenAI_preserves fns { w.session with killerArmed := false } raw
      simp only [stepEv, onOpenAIMessage]
      rw [h.1, h.2.1]
      simp [hOai, hBuf]
  | killerFired => simp [Ev.nonClosing] at hne
  | openaiClosed => simp [Ev.nonClosing] at hne
  | twilioClosed => simp [Ev.nonClosing] at hne

/-- Along a run of such events from an OPEN backend socket and an empty
buffer, the buffer is empty at every intermediate point. -/
theorem statesAlong_buffer_empty (fns : List FunctionDef) :
    ∀ (evs : List Ev) (w : World),
      (∀ e ∈ evs, e.nonClosing = true) →
      w.session.openai = some ReadyState.OPEN →
      w.session.buffer = [] →
      ∀ w3 ∈ statesAlong fns w evs, w3.session.buffer = [] := by
  intro evs
  induction evs with
  | nil => intro w _ _ _ w3 h3; simp [statesAlong] at h3
  | cons e rest ih =>
      intro w hall hO hB w3 h3
      have he : e.nonClosing = true := hall e (by simp)
      have hstep := stepEv_open_empty fns w e he hO hB
      simp only [statesAlong, List.mem_cons] at h3
      rcases h3 with h3 | h3
      · rw [h3]; exact hstep.2
      · exact ih (stepEv fns w e).1 (fun x hx => hall x (by simp [hx])) hstep.1 hstep.2 w3 h3

/-- While the backend socket is still CONNECTING, a run of media events
keeps it CONNECTING, appends each frame to the buffer in arrival order,
and sends nothing to the backend. -/
theorem runEv_media_buffers (fns : List FunctionDef) :
    ∀ (ms : List (Int × String)) (w : World),
      w.session.openai = some ReadyState.CONNECTING →
      (runEv fns w (mediaEvs ms)).1.session.openai = some ReadyState.CONNECTING ∧
      (runEv fns w (mediaEvs ms)).1.session.buffer
          = w.session.buffer ++ appendsOf ms ∧
      (∀ e ∈ (runEv fns w (mediaEvs ms)).2, e.toOpenai = []) := by
  intro ms
  induction ms with
  | nil => intro w hO; simp [mediaEvs, appendsOf, runEv, hO]
  | cons p rest ih =>
      intro w hO
      have h1 : (stepEv fns w (Ev.fromTwilio (TwilioRaw.media p.1 "" p.2))).1.session.openai
          = some ReadyState.CONNECTING := by
        simp [stepEv, handleTwilio, hO]
      have h2 : (stepEv fns w (Ev.fromTwilio (TwilioRaw.media p.1 "" p.2))).1.session.buffer
          = w.session.buffer ++ [OAIOut.append p.2] := by
        simp [stepEv, handleTwilio, hO]
      have h3 : (stepEv fns w (Ev.fromTwilio (TwilioRaw.media p.1 "" p.2))).2 = Eff.nil := by
        simp [stepEv, handleTwilio, hO]
      have hih := ih (stepEv fns w (Ev.fromTwilio (TwilioRaw.media p.1 "" p.2))).1 h1
      refine ⟨?_, ?_, ?_⟩
      · simp only [mediaEvs, List.map_cons, runEv]
        exact hih.1
      · simp only [mediaEvs, List.map_cons, runEv]
        simp only [mediaEvs] at hih
        rw [hih.2.1, h2]
        simp [appendsOf]
      · simp only [mediaEvs, List.map_cons, runEv]
        intro e he
        simp only [List.mem_cons] at he
        rcases he with he | he
        · rw [he, h3]
          rfl
        · exact hih.2.2 e he

/-- The backend open event sends the configuration handshake followed by
the buffered frames in order, clears the buffer, and marks the socket
OPEN. -/
theorem stepEv_open_drains (fns : List FunctionDef) (w : World) (r : ReadyState)
    (hO : w.session.openai = some r) :
    stepEv fns w Ev.openaiOpened
      = ({ w with session := { w.session with openai := some ReadyState.OPEN, buffer := [] } },
         { Eff.nil with toOpenai := OAIOut.sessionUpdate :: w.session.buffer }) := by
  simp [stepEv, hO]

/-- C3 counterexample to the claim that the buffer stays empty at every
point after the drain: start, one buffered media frame, the open event
(drain of exactly that frame, in order), stop (commit arms the guard),
the guard fires and closes the backend socket, and the next media frame
is buffered again — the buffer is non-empty after the drain. -/
theorem c3_counterexample :
    ((runEv [] connectingWorld refillTrace).2.get? 2).map Eff.toOpenai
        = some [OAIOut.sessionUpdate, OAIOut.append "p1"] ∧
    (runEv [] connectingWorld refillTrace).1.session.buffer = [OAIOut.append "p2"] ∧
    (runEv [] connectingWorld refillTrace).1.session.buffer ≠ [] := by
  decide

/-- C3 (amended): media frames processed while the backend socket is
still connecting are buffered in arrival order with nothing sent; the
open event drains them, in that order, after the configuration
handshake, exactly once, leaving the buffer empty; and the buffer stays
empty at every later point as long as no event fires the guard or closes
a leg (after such a close, later media frames are buffered again, as the
counterexample shows). -/
theorem c3_buffer_order (fns : List FunctionDef) (w : World)
    (ms : List (Int × String)) (evs : List Ev)
    (hConn : w.session.openai = some ReadyState.CONNECTING)
    (hBuf : w.session.buffer = [])
    (hEvs : ∀ e ∈ evs, e.nonClosing = true) :
    (∀ e ∈ (runEv fns w (mediaEvs ms)).2, e.toOpenai = []) ∧
    (runEv fns w (mediaEvs ms)).1.session.buffer = appendsOf ms ∧
    (stepEv fns (runEv fns w (mediaEvs ms)).1 Ev.openaiOpened).2.toOpenai
        = OAIOut.sessionUpdate :: appendsOf ms ∧
    (stepEv fns (runEv fns w (mediaEvs ms)).1 Ev.openaiOpened).1.session.buffer = [] ∧
    (∀ w3 ∈ statesAlong fns (stepEv fns (runEv fns w (mediaEvs ms)).1 Ev.openaiOpened).1 evs,
        w3.session.buffer = []) := by
  have hrun := runEv_media_buffers fns ms w hConn
  have hb1 : (runEv fns w (mediaEvs ms)).1.session.buffer = appendsOf ms := by
    rw [hrun.2.1, hBuf]; simp
  have hdrain := stepEv_open_drains fns (runEv fns w (mediaEvs ms)).1 _ hrun.1
  refine ⟨hrun.2.2, hb1, ?_, ?_, ?_⟩
  · rw [hdrain]; simp [hb1]
  · rw [hdrain]
  · have hO2 : (stepEv fns (runEv fns w (mediaEvs ms)).1 Ev.openaiOpened).1.session.openai
        = some ReadyState.OPEN := by rw [hdrain]
    have hB2 : (stepEv fns (runEv fns w (mediaEvs ms)).1 Ev.openaiOpened).1.session.buffer
        = [] := by rw [hdrain]
    exact statesAlong_buffer_empty fns evs _ hEvs hO2 hB2

/-- C3 witness: two media frames buffered while connecting are drained
in arrival order right after the handshake. -/
theorem c3_buffer_order_witness :
    (runEv [] connectingWorld (mediaEvs [(10, "p1"), (20, "p2")])).1.session.buffer
        = appendsOf [(10, "p1"), (20, "p2")] ∧
    (stepEv [] (runEv [] connectingWorld (mediaEvs [(10, "p1"), (20, "p2")])).1
        Ev.openaiOpened).2.toOpenai
        = OAIOut.sessionUpdate :: appendsOf [(10, "p1"), (20, "p2")] := by
  have h := c3_buffer_order [] connectingWorld [(10, "p1"), (20, "p2")]
      [Ev.fromTwilio TwilioRaw.stop] rfl rfl (by decide)
  exact ⟨h.2.1, h.2.2.1⟩

/-- C4 witness: the amended timeout behavior evaluated on the committed
session. -/
theorem c4_response_timeout_witness :
    (onOpenAIMessage [] committedWorld.session (OAIRaw.audioDelta none "d")).1.killerArmed
      = false ∧
    stepEv [] committedWorld Ev.killerFired
      = ({ committedWorld with session := { committedWorld.session with killerArmed := false, openai := some ReadyState.CLOSING } },
         { Eff.nil with closes := ["openai"] }) ∧
    (stepEv [] committedWorld Ev.openaiClosed).1.session.state
      = committedWorld.session.state := by
  have h := c4_response_timeout [] committedWorld (OAIRaw.audioDelta none "d")
  exact ⟨h.1, h.2.1 rfl rfl, (h.2.2 ReadyState.OPEN rfl).2⟩

/-- A backend frame in revision 2 never changes the gotStart flag, the
session presence, the streamSid, or the backend socket state. -/
theorem onOpenAIMessageV2_preserves (c : ConnV2) (raw : OAIRaw) :
    (onOpenAIMessageV2 c raw).1.gotStart = c.gotStart ∧
    (onOpenAIMessageV2 c raw).1.sidOf = c.sidOf ∧
    (onOpenAIMessageV2 c raw).1.openAiReady = c.openAiReady := by
  cases hc : c.sess with
  | none => cases raw <;> simp [onOpenAIMessageV2, hc]
  | some s =>
      cases raw with
      | transcriptionCompleted t =>
          simp only [onOpenAIMessageV2, hc]
          split <;> simp [ConnV2.sidOf, hc]
      | responseDone tr => simp [onOpenAIMessageV2, hc, ConnV2.sidOf]
      | audioDelta i d =>
          simp only [onOpenAIMessageV2, hc]
          split <;> simp [ConnV2.sidOf, hc]
      | speechStarted => simp [onOpenAIMessageV2, hc]
      | outputItemDoneFn nm cid args => simp [onOpenAIMessageV2, hc]
      | outputItemDoneOther => simp [onOpenAIMessageV2, hc]
      | other => simp [onOpenAIMessageV2, hc]
      | malformed r => simp [onOpenAIMessageV2, hc]

/-- Every telephony frame a backend event of revision 2 emits carries
the current streamSid of the session. -/
theorem onOpenAIMessageV2_outs (c : ConnV2) (raw : OAIRaw) (sid : String)
    (h : c.sidOf = some (some sid)) :
    ∀ f ∈ (onOpenAIMessageV2 c raw).2.toTwilio, f.streamSid = some sid := by
  obtain ⟨s, hs, hsid⟩ : ∃ s, c.sess = some s ∧ s.streamSid = some sid := by
    cases hc : c.sess with
    | none => simp [ConnV2.sidOf, hc] at h
    | some s =>
        simp [ConnV2.sidOf, hc] at h
        exact ⟨s, rfl, h⟩
  cases raw with
  | audioDelta i d =>
      simp only [onOpenAIMessageV2, hs]
      split <;> simp [EffV2.nil, hsid]
  | transcriptionCompleted t =>
      simp only [onOpenAIMessageV2, hs]
      split <;> simp [EffV2.nil]
  | responseDone tr => simp [onOpenAIMessageV2, hs, EffV2.nil]
  | speechStarted => simp [onOpenAIMessageV2, hs, EffV2.nil]
  | outputItemDoneFn nm cid args => simp [onOpenAIMessageV2, hs, EffV2.nil]
  | outputItemDoneOther => simp [onOpenAIMessageV2, hs, EffV2.nil]
  | other => simp [onOpenAIMessageV2, hs, EffV2.nil]
  | malformed r => simp [onOpenAIMessageV2, EffV2.nil]

/-- A run of backend events in revision 2 always succeeds and preserves
the gotStart flag, the streamSid and the backend socket state. -/
theorem runV2_openai_ok (evs : List OAIRaw) :
    ∀ c : ConnV2, ∃ c1 outs,
      runV2 c (evs.map EvV2.fromOpenAI) = Except.ok (c1, outs) ∧
      c1.gotStart = c.gotStart ∧ c1.sidOf = c.sidOf ∧
      c1.openAiReady = c.openAiReady := by
  induction evs with
  | nil => intro c; exact ⟨c, [], rfl, rfl, rfl, rfl⟩
  | cons e rest ih =>
      intro c
      obtain ⟨c1, outs, hrun, hg, hsid, hor⟩ := ih (onOpenAIMessageV2 c e).1
      have hp := onOpenAIMessageV2_preserves c e
      refine ⟨c1, (onOpenAIMessageV2 c e).2.toTwilio ++ outs, ?_, ?_, ?_, ?_⟩
      · simp [runV2, stepV2, hrun]
      · rw [hg, hp.1]
      · rw [hsid, hp.2.1]
      · rw [hor, hp.2.2]

/-- The adoption step of revision 2: a media frame before any start
event clears the watchdog, sets gotStart, and adopts the top-level
streamSid of the frame. -/
theorem adoption_step (c : ConnV2) (s : SessionV2) (ts : Int)
    (psid payload : String)
    (hg : c.gotStart = false) (hs : c.sess = some s) :
    stepV2 c (EvV2.fromTwilio (TwilioRaw.media ts psid payload))
      = Except.ok ({ c with wdActive := false, gotStart := true, sess := some { s with streamSid := some psid } },
                   { EffV2.nil with
                     toOpenai := if c.openAiReady = ReadyState.OPEN
                                 then [OAIOut.append payload] else [] }) := by
  simp [stepV2, onTwilioMessageV2, hg, hs]

/-- After the adoption, any continuation without a further start event
and without malformed telephony frames runs successfully, keeps the
adopted streamSid, and tags every outbound telephony frame with it. -/
theorem runV2_post (sid : String) :
    ∀ (post : List EvV2) (c : ConnV2),
      (∀ e ∈ post, e.allowedAfterAdoption = true) →
      c.gotStart = true → c.sidOf = some (some sid) →
      ∃ cf outs, runV2 c post = Except.ok (cf, outs) ∧
        cf.sidOf = some (some sid) ∧ ∀ f ∈ outs, f.streamSid = some sid := by
  intro post
  induction post with
  | nil => intro c _ hg hsid; exact ⟨c, [], rfl, hsid, by simp⟩
  | cons e rest ih =>
      intro c hall hg hsid
      cases e with
      | fromOpenAI raw =>
          have hp := onOpenAIMessageV2_preserves c raw
          have houts := onOpenAIMessageV2_outs c raw sid hsid
          obtain ⟨cf, outs, hrun, hsidf, hof⟩ :=
            ih (onOpenAIMessageV2 c raw).1 (fun x hx => hall x (by simp [hx]))
               (by rw [hp.1, hg]) (by rw [hp.2.1, hsid])
          refine ⟨cf, (onOpenAIMessageV2 c raw).2.toTwilio ++ outs, ?_, hsidf, ?_⟩
          · simp [runV2, stepV2, hrun]
          · intro f hf
            rcases List.mem_append.mp hf with h | h
            · exact houts f h
            · exact hof f h
      | fromTwilio raw =>
          cases raw with
          | start s =>
              have hbad := hall (EvV2.fromTwilio (TwilioRaw.start s)) (by simp)
              simp [EvV2.allowedAfterAdoption] at hbad
          | malformed r =>
              have hbad := hall (EvV2.fromTwilio (TwilioRaw.malformed r)) (by simp)
              simp [EvV2.allowedAfterAdoption] at hbad
          | media ts tsid pl =>
              have hstep : stepV2 c (EvV2.fromTwilio (TwilioRaw.media ts tsid pl))
                  = Except.ok (c, { EffV2.nil with
                      toOpenai := if c.openAiReady = ReadyState.OPEN
                                  then [OAIOut.append pl] else [] }) := by
                simp [stepV2, onTwilioMessageV2, hg]
              obtain ⟨cf, outs, hrun, hsidf, hof⟩ :=
                ih c (fun x hx => hall x (by simp [hx])) hg hsid
              refine ⟨cf, outs, ?_, hsidf, hof⟩
              simp [runV2, hstep, hrun, EffV2.nil]
          | stop =>
              have hstep : stepV2 c (EvV2.fromTwilio TwilioRaw.stop)
                  = Except.ok (c, EffV2.nil) := by
                simp [stepV2, onTwilioMessageV2]
              obtain ⟨cf, outs, hrun, hsidf, hof⟩ :=
                ih c (fun x hx => hall x (by simp [hx])) hg hsid
              refine ⟨cf, outs, ?_, hsidf, hof⟩
              simp [runV2, hstep, hrun, EffV2.nil]
          | other =>
              have hstep : stepV2 c (EvV2.fromTwilio TwilioRaw.other)
                  = Except.ok (c, EffV2.nil) := by
                simp [stepV2, onTwilioMessageV2]
              obtain ⟨cf, outs, hrun, hsidf, hof⟩ :=
                ih c (fun x hx => hall x (by simp [hx])) hg hsid
              refine ⟨cf, outs, ?_, hsidf, hof⟩
              simp [runV2, hstep, hrun, EffV2.nil]

/-- C7: when no start event ever arrives and the first telephony frame
is a media frame carrying streamSid `psid`, the session adopts `psid`,
and every outbound telephony frame emitted afterwards carries `psid`
(for any continuation without start events or malformed frames). -/
theorem c7_streamsid_adoption (pre : List OAIRaw) (post : List EvV2)
    (c0 : ConnV2) (s0 : SessionV2) (ts : Int) (psid payload : String)
    (hg : c0.gotStart = false) (hs : c0.sess = some s0)
    (hpost : ∀ e ∈ post, e.allowedAfterAdoption = true) :
    ∃ cf outs, runAfterAdoption c0 pre ts psid payload post = Except.ok (cf, outs) ∧
      cf.sidOf = some (some psid) ∧ ∀ f ∈ outs, f.streamSid = some psid := by
  obtain ⟨c1, o1, hrun1, hg1, hsid1, _⟩ := runV2_openai_ok pre c0
  have h0 : c0.sidOf = some s0.streamSid := by simp [ConnV2.sidOf, hs]
  rw [h0] at hsid1
  obtain ⟨s1, hc1⟩ : ∃ s1, c1.sess = some s1 := by
    cases hc : c1.sess with
    | none => rw [ConnV2.sidOf, hc] at hsid1; simp at hsid1
    | some s1 => exact ⟨s1, rfl⟩
  have hg1f : c1.gotStart = false := by rw [hg1, hg]
  have hstep := adoption_step c1 s1 ts psid payload hg1f hc1
  obtain ⟨cf, outs, hrunp, hsidf, hof⟩ :=
    runV2_post psid post
      { c1 with wdActive := false, gotStart := true, sess := some { s1 with streamSid := some psid } }
      hpost rfl (by simp [ConnV2.sidOf])
  refine ⟨cf, outs, ?_, hsidf, hof⟩
  simp [runAfterAdoption, hrun1, hstep, hrunp]

/-- C7 witness: the adoption scenario evaluated on a concrete trace with
one backend delta before the first media frame and a mixed continuation. -/
theorem c7_streamsid_adoption_witness :
    ∃ cf outs,
      runAfterAdoption freshConnV2 [OAIRaw.audioDelta none "d0"] 1 "S1" "p1"
          [EvV2.fromOpenAI (OAIRaw.audioDelta (some "i1") "d1"),
           EvV2.fromTwilio (TwilioRaw.media 5 "S2" "p2")]
        = Except.ok (cf, outs) ∧
      cf.sidOf = some (some "S1") ∧ ∀ f ∈ outs, f.streamSid = some "S1" :=
  c7_streamsid_adoption [OAIRaw.audioDelta none "d0"]
    [EvV2.fromOpenAI (OAIRaw.audioDelta (some "i1") "d1"),
     EvV2.fromTwilio (TwilioRaw.media 5 "S2" "p2")]
    freshConnV2 { streamSid := none, transcript := "" } 1 "S1" "p1"
    rfl rfl (by decide)

end DeineTuer
